import Mathlib

/-!
Shallow embedding of the device-tree discovery-and-interrupt-binding engine
(`DevicetreeDriverBuilder::build` in `drivers/src/builder/devicetree.rs`) and
of the Allwinner UART `Inner::write_str` (`drivers/src/uart/uart_allwinner.rs`).

The discovery pass walks the tree once; for each node it may classify it as an
interrupt controller (inserting `phandle -> {index, cells}` into a lookup map
and pushing the controller device) and, independently, as an ordinary device.
The binding pass then decodes every device's `interrupts-extended` wire list
against the lookup map and issues `register_device` / `unmask` calls.

Nodes are abstracted at the granularity the binding engine observes: each node
carries the outcome of its controller-classification and device-classification
attempts (success with a parsed payload, "not supported", or another decode /
resource error), exactly the three outcomes the walk callback distinguishes.
Registration and unmask calls are recorded as an event trace; Rust panics
(slice out of range, `unreachable!`) are explicit error values of the
embedding.
-/

set_option autoImplicit false

namespace ZCoreDT

/-- `DeviceError` from the drivers crate, restricted to the variants the
embedded code distinguishes. -/
inductive DeviceError where
  | notSupported
  | invalidParam
  | noResources
  | otherErr
deriving DecidableEq, Repr

/-- The `Device` tagged union. An `Irq` device carries an identifier and, as
the spec describes for interrupt-controller capabilities, the size of its
supported interrupt-number range (used by `register_device` / `unmask`). -/
inductive Device where
  | Irq (id : Nat) (nirqs : Nat)
  | Uart (id : Nat)
  | Block (id : Nat)
  | Display (id : Nat)
  | Input (id : Nat)
  | Net (id : Nat)
deriving DecidableEq, Repr

/-- `InterruptsProp`: the flat `interrupts-extended` cell list (`Vec<u32>`). -/
abbrev InterruptsProp := List Nat

/-- `DevWithInterrupt = (Device, InterruptsProp)`. -/
abbrev DevWithInterrupt := Device × InterruptsProp

/-- `Intc`: the lookup-table record `{ index, cells }`. -/
structure Intc where
  index : Nat
  cells : Nat
deriving DecidableEq, Repr

/-- The data `parse_intc` yields on success: the constructed `Device::Irq`
payload, the controller's own `interrupts-extended`, and its `IntcProps`
(`phandle`, `#interrupt-cells`). -/
structure IntcParse where
  irqId : Nat
  nirqs : Nat
  interrupts : InterruptsProp
  phandle : Nat
  interruptCells : Nat
deriving DecidableEq, Repr

/-- Outcome of one classification attempt inside the walk callback:
`Ok`, `Err(DeviceError::NotSupported)`, or any other `Err`. -/
inductive ParseOutcome (α : Type) where
  | ok (a : α)
  | notSupported
  | errOther (e : DeviceError)
deriving DecidableEq, Repr

/-- A tree node, abstracted to what the walk callback observes: whether it has
the `interrupt-controller` property, the outcome of `parse_intc` on it, and
the outcome of the ordinary-device `match comp` dispatch. `name` identifies
the node in warnings. -/
structure Node where
  name : Nat
  hasIntcProp : Bool
  intcOutcome : ParseOutcome IntcParse
  devOutcome : ParseOutcome DevWithInterrupt
deriving DecidableEq, Repr

/-- State threaded through the walk: `intc_map` (modelled as an association
list where insertion prepends and lookup takes the first hit, matching
`BTreeMap::insert` overwrite semantics), `dev_list`, and the names of nodes
for which a warning was logged. -/
structure DiscoverState where
  intcMap : List (Nat × Intc)
  devList : List DevWithInterrupt
  warnings : List Nat
deriving DecidableEq, Repr

/-- `intc_map.get(phandle)`. -/
def lookupIntc (m : List (Nat × Intc)) (ph : Nat) : Option Intc :=
  match m with
  | [] => none
  | (k, v) :: rest => if k = ph then some v else lookupIntc rest ph

/-- The `interrupt-controller` branch of the walk callback: on `Ok`, insert
`phandle -> { index = dev_list.len(), cells }` into `intc_map` and push the
controller device; on `NotSupported`, skip silently; on any other error, log
a warning. -/
def discoverIntcPhase (st : DiscoverState) (n : Node) : DiscoverState :=
  if n.hasIntcProp then
    match n.intcOutcome with
    | .ok p =>
      { st with
        intcMap := (p.phandle, ⟨st.devList.length, p.interruptCells⟩) :: st.intcMap,
        devList := st.devList ++ [(Device.Irq p.irqId p.nirqs, p.interrupts)] }
    | .notSupported => st
    | .errOther _ => { st with warnings := st.warnings ++ [n.name] }
  else st

/-- The independent ordinary-device branch of the walk callback: push on
`Ok`, skip silently on `NotSupported`, warn on any other error. -/
def discoverDevPhase (st : DiscoverState) (n : Node) : DiscoverState :=
  match n.devOutcome with
  | .ok d => { st with devList := st.devList ++ [d] }
  | .notSupported => st
  | .errOther _ => { st with warnings := st.warnings ++ [n.name] }

/-- One walk-callback invocation: the `interrupt-controller` branch, then the
ordinary-device branch. -/
def discoverNode (st : DiscoverState) (n : Node) : DiscoverState :=
  discoverDevPhase (discoverIntcPhase st n) n

/-- The full `dt.walk` over a node list. -/
def discoverList (st : DiscoverState) : List Node → DiscoverState
  | [] => st
  | n :: ns => discoverList (discoverNode st n) ns

/-- Initial walk state. -/
def initState : DiscoverState := ⟨[], [], []⟩

/-- A registration-pass side effect observable on an interrupt controller. -/
inductive Event where
  | register (ctrl : Device) (irqNum : Nat) (dev : Device)
  | unmask (ctrl : Device) (irqNum : Nat)
deriving DecidableEq, Repr

/-- Errors of the binding pass. `err` is a propagated `DeviceError`; the
`panicSlice` / `panicIndex` / `panicUnreachable` values model the Rust panics
of `&extended[1 + cells..]`, `dev_list[*index]` and `unreachable!()`. -/
inductive BuildErr where
  | err (e : DeviceError)
  | panicSlice
  | panicIndex
  | panicUnreachable
deriving DecidableEq, Repr

/-- Modelled from the spec: the concrete interrupt-controller
`register_device` / `unmask` implementations live outside the embedded
sources; the spec says both calls may fail when the interrupt number is out of
the controller's supported range and that such failure surfaces as an
invalid-parameter failure. A controller `Irq _ nirqs` accepts exactly the
interrupt numbers below `nirqs`. -/
def registerOk (nirqs irqNum : Nat) : Bool := irqNum < nirqs

/-- The sentinel interrupt number `0xffff_ffff`. -/
def sentinel : Nat := 0xffffffff

/-- The body of one binding-loop iteration after the cursor has been advanced:
index `dev_list` at the controller's index (`unreachable!()` if it is not an
`Irq` device, panic if out of range), skip the group if the interrupt number
is the sentinel, otherwise call `register_device` then `unmask`, recording
each call as an event and stopping at the first failing call. -/
def groupCalls (dl : List DevWithInterrupt) (device : Device) (i : Intc)
    (irqNum : Nat) : List Event × Option BuildErr :=
  match dl[i.index]? with
  | some (Device.Irq cid n, _) =>
    if irqNum = sentinel then ([], none)
    else if registerOk n irqNum then
      ([Event.register (Device.Irq cid n) irqNum device,
        Event.unmask (Device.Irq cid n) irqNum], none)
    else
      ([Event.register (Device.Irq cid n) irqNum device],
       some (.err .invalidParam))
  | some _ => ([], some .panicUnreachable)
  | none => ([], some .panicIndex)

/-- The `while let [phandle, irq_num, ..] = extended` loop for one device:
look the handle up in the map (fatal `InvalidParam` if absent), advance the
cursor by `1 + cells` (panic if that overruns the slice), perform the group's
calls, and continue on the remaining cells. Returns the events issued in
order, and the error that stopped the loop, if any. -/
def resolveDev (dl : List DevWithInterrupt) (m : List (Nat × Intc))
    (device : Device) : List Nat → List Event × Option BuildErr
  | ph :: irqNum :: rest =>
    match lookupIntc m ph with
    | some i =>
      if _h : i.cells ≤ rest.length + 1 then
        match groupCalls dl device i irqNum with
        | (evs, none) =>
          let r := resolveDev dl m device (List.drop i.cells (irqNum :: rest))
          (evs ++ r.1, r.2)
        | (evs, some e) => (evs, some e)
      else ([], some .panicSlice)
    | none => ([], some (.err .invalidParam))
  | _ => ([], none)
termination_by ext => ext.length
decreasing_by
  simp [List.length_drop]
  omega

/-- The registration loop `for (device, interrupts_extended) in &dev_list`,
iterating over `todo` while indexing controllers in `dl`. -/
def bindDevices (dl : List DevWithInterrupt) (m : List (Nat × Intc)) :
    List DevWithInterrupt → List Event × Option BuildErr
  | [] => ([], none)
  | (device, ie) :: rest =>
    match resolveDev dl m device ie with
    | (evs, none) =>
      let r := bindDevices dl m rest
      (evs ++ r.1, r.2)
    | (evs, some e) => (evs, some e)

/-- What `build` returns, together with the observable side effects: the
`DeviceResult<Vec<Device>>` (interrupt metadata dropped on success), the trace
of registration-pass calls, and the warned node names of the discovery pass. -/
structure BuildResult where
  res : Except BuildErr (List Device)
  trace : List Event
  warnings : List Nat
deriving Repr

/-- `DevicetreeDriverBuilder::build`: walk the tree, then run the
registration loop over the collected device list. -/
def build (nodes : List Node) : BuildResult :=
  let st := discoverList initState nodes
  let r := bindDevices st.devList st.intcMap st.devList
  match r.2 with
  | none => ⟨.ok (st.devList.map Prod.fst), r.1, st.warnings⟩
  | some e => ⟨.error e, r.1, st.warnings⟩

/-! ## The Allwinner UART `Inner` (uart_allwinner.rs) -/

namespace UartInner

/-- `Inner::send`: busy-waits on the transmit-ready bit, writes the byte to
the transmit register, and returns `Ok(())`. Embedded as the byte written to
the transmit register together with the `DeviceResult`. -/
def send (ch : Nat) : List Nat × Bool := ([ch], true)

/-- `Inner::write_str`: iterate the bytes; a newline (0x0A) is sent as a
carriage return (0x0D) followed by the newline, any other byte is sent as is;
each `send` failure propagates immediately via `?`. -/
def write_str : List Nat → List Nat × Bool
  | [] => ([], true)
  | b :: bs =>
    if b = 10 then
      let s1 := send 13
      if s1.2 then
        let s2 := send 10
        if s2.2 then
          let r := write_str bs
          (s1.1 ++ s2.1 ++ r.1, r.2)
        else (s1.1 ++ s2.1, false)
      else (s1.1, false)
    else
      let s := send b
      if s.2 then
        let r := write_str bs
        (s.1 ++ r.1, r.2)
      else (s.1, false)

/-- Stated from the claim's words, for comparison with `write_str`: the bytes
of the argument in order, except that every newline byte 0x0A becomes 0x0D
immediately followed by 0x0A. -/
def crlfExpand : List Nat → List Nat
  | [] => []
  | b :: bs => (if b = 10 then [13, 10] else [b]) ++ crlfExpand bs

end UartInner

/-- Well-formedness of a wire list with respect to a controller map: every
group's controller handle is in the map and at least `1 + cells` cells remain
at the cursor when the group starts. -/
def wfWire (m : List (Nat × Intc)) : List Nat → Bool
  | ph :: irqNum :: rest =>
    match lookupIntc m ph with
    | some i =>
      decide (i.cells ≤ rest.length + 1) &&
        wfWire m (List.drop i.cells (irqNum :: rest))
    | none => false
  | _ => true
termination_by ext => ext.length
decreasing_by
  simp [List.length_drop]
  omega

/-- The controller-table invariant: every map entry's index denotes an
`Irq`-class entry of the device list. -/
def MapOk (m : List (Nat × Intc)) (dl : List DevWithInterrupt) : Prop :=
  ∀ ph i, lookupIntc m ph = some i →
    ∃ cid n ie, dl[i.index]? = some (Device.Irq cid n, ie)

/-- Example tree: a one-cell controller with phandle 1, a UART wired to it,
and a second UART whose wire list references the undeclared phandle 2. -/
def exTree : List Node :=
  [⟨0, true, .ok ⟨100, 32, [], 1, 1⟩, .notSupported⟩,
   ⟨1, false, .notSupported, .ok (Device.Uart 7, [1, 5])⟩,
   ⟨2, false, .notSupported, .ok (Device.Uart 8, [2, 6])⟩]

/-- Example device list with controllers of cell widths 1 and 2 at indices 0
and 1, and a UART whose wire list references both. -/
def exMixedList : List DevWithInterrupt :=
  [(Device.Irq 100 32, []), (Device.Irq 200 64, []),
   (Device.Uart 7, [1, 5, 2, 7, 0, 1, 9])]

/-- Controller map for `exMixedList`: phandle 1 has one cell, phandle 2 has
two cells. -/
def exMixedMap : List (Nat × Intc) :=
  [(1, ⟨0, 1⟩), (2, ⟨1, 2⟩)]

/-! ## Unfolding lemmas for the binding loop -/

theorem resolveDev_nil (dl : List DevWithInterrupt) (m : List (Nat × Intc)) (device : Device) :
    resolveDev dl m device [] = ([], none) := by
  simp [resolveDev]

theorem resolveDev_single (dl : List DevWithInterrupt) (m : List (Nat × Intc)) (device : Device)
    (x : Nat) : resolveDev dl m device [x] = ([], none) := by
  simp [resolveDev]

theorem resolveDev_notFound (dl : List DevWithInterrupt) (m : List (Nat × Intc)) (device : Device)
    (ph irqNum : Nat) (rest : List Nat) (h : lookupIntc m ph = none) :
    resolveDev dl m device (ph :: irqNum :: rest) = ([], some (.err .invalidParam)) := by
  rw [resolveDev]
  simp [h]

theorem resolveDev_found (dl : List DevWithInterrupt) (m : List (Nat × Intc)) (device : Device)
    (ph irqNum : Nat) (rest : List Nat) (i : Intc) (evs : List Event)
    (h : lookupIntc m ph = some i) (hb : i.cells ≤ rest.length + 1)
    (hg : groupCalls dl device i irqNum = (evs, none)) :
    resolveDev dl m device (ph :: irqNum :: rest) =
      (evs ++ (resolveDev dl m device (List.drop i.cells (irqNum :: rest))).1,
       (resolveDev dl m device (List.drop i.cells (irqNum :: rest))).2) := by
  rw [resolveDev]
  simp [h, hb, hg]

theorem resolveDev_found_err (dl : List DevWithInterrupt) (m : List (Nat × Intc))
    (device : Device) (ph irqNum : Nat) (rest : List Nat) (i : Intc) (evs : List Event)
    (e : BuildErr) (h : lookupIntc m ph = some i) (hb : i.cells ≤ rest.length + 1)
    (hg : groupCalls dl device i irqNum = (evs, some e)) :
    resolveDev dl m device (ph :: irqNum :: rest) = (evs, some e) := by
  rw [resolveDev]
  simp [h, hb, hg]

theorem resolveDev_sliceOOB (dl : List DevWithInterrupt) (m : List (Nat × Intc))
    (device : Device) (ph irqNum : Nat) (rest : List Nat) (i : Intc)
    (h : lookupIntc m ph = some i) (hb : ¬ i.cells ≤ rest.length + 1) :
    resolveDev dl m device (ph :: irqNum :: rest) = ([], some .panicSlice) := by
  rw [resolveDev]
  simp [h, hb]

theorem resolveDev_step (dl : List DevWithInterrupt) (m : List (Nat × Intc)) (device : Device)
    (ph irqNum : Nat) (rest : List Nat) (i : Intc)
    (h : lookupIntc m ph = some i) (hb : i.cells ≤ rest.length + 1)
    (hg : (groupCalls dl device i irqNum).2 = none) :
    resolveDev dl m device (ph :: irqNum :: rest) =
      ((groupCalls dl device i irqNum).1 ++
        (resolveDev dl m device (List.drop i.cells (irqNum :: rest))).1,
       (resolveDev dl m device (List.drop i.cells (irqNum :: rest))).2) := by
  rcases hgc : groupCalls dl device i irqNum with ⟨evs, e⟩
  rw [hgc] at hg
  subst hg
  rw [resolveDev_found dl m device ph irqNum rest i evs h hb hgc]

theorem resolveDev_stop (dl : List DevWithInterrupt) (m : List (Nat × Intc)) (device : Device)
    (ph irqNum : Nat) (rest : List Nat) (i : Intc) (e : BuildErr)
    (h : lookupIntc m ph = some i) (hb : i.cells ≤ rest.length + 1)
    (hg : (groupCalls dl device i irqNum).2 = some e) :
    resolveDev dl m device (ph :: irqNum :: rest) =
      ((groupCalls dl device i irqNum).1, some e) := by
  rcases hgc : groupCalls dl device i irqNum with ⟨evs, e'⟩
  rw [hgc] at hg
  simp only at hg
  subst hg
  rw [resolveDev_found_err dl m device ph irqNum rest i evs e h hb hgc]

/-- `groupCalls` never produces the slice panic: that panic belongs to the
cursor advance, not to the group's calls. -/
theorem groupCalls_ne_slice (dl : List DevWithInterrupt) (device : Device) (i : Intc)
    (irqNum : Nat) : (groupCalls dl device i irqNum).2 ≠ some .panicSlice := by
  unfold groupCalls
  split <;> try simp
  split <;> try simp
  split <;> simp

/-! ## Unfolding lemmas for the wire-list well-formedness check -/

theorem wfWire_nil (m : List (Nat × Intc)) : wfWire m [] = true := by
  simp [wfWire]

theorem wfWire_single (m : List (Nat × Intc)) (x : Nat) : wfWire m [x] = true := by
  simp [wfWire]

theorem wfWire_found (m : List (Nat × Intc)) (ph irqNum : Nat) (rest : List Nat) (i : Intc)
    (h : lookupIntc m ph = some i) :
    wfWire m (ph :: irqNum :: rest) =
      (decide (i.cells ≤ rest.length + 1) &&
        wfWire m (List.drop i.cells (irqNum :: rest))) := by
  rw [wfWire]
  simp [h]

theorem wfWire_notFound (m : List (Nat × Intc)) (ph irqNum : Nat) (rest : List Nat)
    (h : lookupIntc m ph = none) :
    wfWire m (ph :: irqNum :: rest) = false := by
  rw [wfWire]
  simp [h]

/-! ## The controller-table invariant of the discovery pass -/

theorem getElem?_append_of_irq (dl : List DevWithInterrupt) (d : DevWithInterrupt)
    (idx cid n : Nat) (ie : InterruptsProp)
    (h : dl[idx]? = some (Device.Irq cid n, ie)) :
    (dl ++ [d])[idx]? = some (Device.Irq cid n, ie) := by
  have hlt : idx < dl.length := by
    by_contra hge
    rw [List.getElem?_eq_none (Nat.le_of_not_lt hge)] at h
    exact Option.noConfusion h
  rw [List.getElem?_append, if_pos hlt]
  exact h

theorem mapOk_push (m : List (Nat × Intc)) (dl : List DevWithInterrupt)
    (d : DevWithInterrupt) (h : MapOk m dl) : MapOk m (dl ++ [d]) := by
  intro ph i hl
  obtain ⟨cid, n, ie, hd⟩ := h ph i hl
  exact ⟨cid, n, ie, getElem?_append_of_irq dl d i.index cid n ie hd⟩

theorem mapOk_insert (m : List (Nat × Intc)) (dl : List DevWithInterrupt)
    (p : IntcParse) (h : MapOk m dl) :
    MapOk ((p.phandle, ⟨dl.length, p.interruptCells⟩) :: m)
      (dl ++ [(Device.Irq p.irqId p.nirqs, p.interrupts)]) := by
  intro ph i hl
  rw [lookupIntc] at hl
  by_cases hph : p.phandle = ph
  · rw [if_pos hph] at hl
    cases hl
    exact ⟨p.irqId, p.nirqs, p.interrupts, by simp⟩
  · rw [if_neg hph] at hl
    exact mapOk_push m dl _ h ph i hl

theorem mapOk_intcPhase (st : DiscoverState) (nd : Node)
    (h : MapOk st.intcMap st.devList) :
    MapOk (discoverIntcPhase st nd).intcMap (discoverIntcPhase st nd).devList := by
  unfold discoverIntcPhase
  split
  · split
    · exact mapOk_insert st.intcMap st.devList _ h
    · exact h
    · exact h
  · exact h

theorem mapOk_devPhase (st : DiscoverState) (nd : Node)
    (h : MapOk st.intcMap st.devList) :
    MapOk (discoverDevPhase st nd).intcMap (discoverDevPhase st nd).devList := by
  unfold discoverDevPhase
  split
  · exact mapOk_push st.intcMap st.devList _ h
  · exact h
  · exact h

theorem mapOk_node (st : DiscoverState) (nd : Node)
    (h : MapOk st.intcMap st.devList) :
    MapOk (discoverNode st nd).intcMap (discoverNode st nd).devList :=
  mapOk_devPhase (discoverIntcPhase st nd) nd (mapOk_intcPhase st nd h)

theorem mapOk_discoverList (st : DiscoverState) (ns : List Node)
    (h : MapOk st.intcMap st.devList) :
    MapOk (discoverList st ns).intcMap (discoverList st ns).devList := by
  induction ns generalizing st with
  | nil => exact h
  | cons n ns ih => exact ih (discoverNode st n) (mapOk_node st n h)

/-! ## Claim theorems -/

/-- C10: `UartAllwinner`'s `Inner::write_str` transmits the bytes of its
argument in order, except that every newline byte 0x0A is transmitted as a
carriage return 0x0D immediately followed by 0x0A, and it returns success
(every underlying `send` succeeds). -/
theorem c10_write_str_crlf (s : List Nat) :
    UartInner.write_str s = (UartInner.crlfExpand s, true) := by
  induction s with
  | nil => rfl
  | cons b bs ih =>
    by_cases hb : b = 10 <;>
      simp [UartInner.write_str, UartInner.crlfExpand, UartInner.send, hb, ih]

/-- C9: the binding loop only processes a group when at least two cells
remain; a wire list with exactly one remaining cell (a trailing lone
controller handle, or the final cell left by a zero-cell controller's group)
ends resolution of that device successfully, with no error and no
registration call for the leftover cell. -/
theorem c9_lone_trailing_cell (dl : List DevWithInterrupt) (m : List (Nat × Intc))
    (device : Device) (x : Nat) :
    resolveDev dl m device [x] = ([], none) :=
  resolveDev_single dl m device x

/-- C3: a group whose interrupt number (the first cell after the controller
handle) is the sentinel 0xFFFFFFFF issues no register_device and no unmask
call, yet the cursor still advances by exactly `1 + cells`, so the rest of
the wire list is decoded from the correct position. -/
theorem c3_sentinel_group (dl : List DevWithInterrupt) (m : List (Nat × Intc))
    (device : Device) (ph : Nat) (rest : List Nat) (i : Intc) (cid n : Nat)
    (ie : InterruptsProp) (h : lookupIntc m ph = some i)
    (hb : i.cells ≤ rest.length + 1)
    (hidx : dl[i.index]? = some (Device.Irq cid n, ie)) :
    resolveDev dl m device (ph :: sentinel :: rest) =
      resolveDev dl m device (List.drop i.cells (sentinel :: rest)) := by
  have hg : (groupCalls dl device i sentinel).2 = none := by
    simp [groupCalls, hidx]
  rw [resolveDev_step dl m device ph sentinel rest i h hb hg]
  simp [groupCalls, hidx]

/-- Witness for C3 at a concrete input: a one-cell controller at phandle 1,
wire list `[1, sentinel, 1, 5]`; the sentinel group contributes nothing and
resolution continues at the following group. -/
theorem c3_witness :
    lookupIntc [(1, (⟨0, 1⟩ : Intc))] 1 = some ⟨0, 1⟩ ∧
    resolveDev [(Device.Irq 100 32, [])] [(1, ⟨0, 1⟩)] (Device.Uart 7)
        (1 :: sentinel :: [1, 5]) =
      resolveDev [(Device.Irq 100 32, [])] [(1, ⟨0, 1⟩)] (Device.Uart 7)
        (List.drop 1 (sentinel :: [1, 5])) :=
  ⟨rfl, c3_sentinel_group [(Device.Irq 100 32, [])] [(1, ⟨0, 1⟩)] (Device.Uart 7)
    1 [1, 5] ⟨0, 1⟩ 100 32 [] rfl (by decide) rfl⟩

/-- C2: when a group's controller handle resolves in the lookup table, the
binding loop consumes exactly `1 + cells` cells where `cells` is the
referenced controller's declared width recorded in the table (the loop has
access to no width local to the referencing device): the remainder of the
wire list is decoded from `List.drop cells` of the cells after the handle. -/
theorem c2_segment_by_table_width (dl : List DevWithInterrupt) (m : List (Nat × Intc))
    (device : Device) (ph irqNum : Nat) (rest : List Nat) (i : Intc)
    (h : lookupIntc m ph = some i) (hb : i.cells ≤ rest.length + 1)
    (hg : (groupCalls dl device i irqNum).2 = none) :
    resolveDev dl m device (ph :: irqNum :: rest) =
      ((groupCalls dl device i irqNum).1 ++
        (resolveDev dl m device (List.drop i.cells (irqNum :: rest))).1,
       (resolveDev dl m device (List.drop i.cells (irqNum :: rest))).2) :=
  resolveDev_step dl m device ph irqNum rest i h hb hg

/-- Witness for C2 on the mixed-width example: two controllers of cell
widths 1 and 2 referenced by the same wire list; the first group is
segmented with the one-cell controller's own width. -/
theorem c2_witness :
    lookupIntc exMixedMap 1 = some ⟨0, 1⟩ ∧
    (groupCalls exMixedList (Device.Uart 7) ⟨0, 1⟩ 5).2 = none ∧
    resolveDev exMixedList exMixedMap (Device.Uart 7) (1 :: 5 :: [2, 7, 0, 1, 9]) =
      ((groupCalls exMixedList (Device.Uart 7) ⟨0, 1⟩ 5).1 ++
        (resolveDev exMixedList exMixedMap (Device.Uart 7)
          (List.drop 1 (5 :: [2, 7, 0, 1, 9]))).1,
       (resolveDev exMixedList exMixedMap (Device.Uart 7)
          (List.drop 1 (5 :: [2, 7, 0, 1, 9]))).2) :=
  ⟨rfl, by decide,
   c2_segment_by_table_width exMixedList exMixedMap (Device.Uart 7) 1 5
     [2, 7, 0, 1, 9] ⟨0, 1⟩ rfl (by decide) (by decide)⟩



/-- C8: for a wire list that is well-formed with respect to the controller
table — every group's handle is in the table and at least `1 + cells` cells
remain when the group starts — the binding loop's interrupt-number read and
cursor advance stay within the bounds of the wire list: the out-of-range
slice branch is unreachable. -/
theorem c8_wf_no_slice_panic (dl : List DevWithInterrupt) (m : List (Nat × Intc))
    (device : Device) (ext : List Nat) (h : wfWire m ext = true) :
    (resolveDev dl m device ext).2 ≠ some .panicSlice := by
  suffices H : ∀ (k : Nat) (l : List Nat), l.length ≤ k → wfWire m l = true →
      (resolveDev dl m device l).2 ≠ some .panicSlice by
    exact H ext.length ext le_rfl h
  intro k
  induction k with
  | zero =>
    intro l hl _hw
    cases l with
    | nil => rw [resolveDev_nil]; simp
    | cons a t => simp at hl
  | succ k ih =>
    intro l hl hw
    rcases l with _ | ⟨ph, _ | ⟨irqNum, rest⟩⟩
    · rw [resolveDev_nil]; simp
    · rw [resolveDev_single]; simp
    · cases hli : lookupIntc m ph with
      | none =>
        rw [wfWire_notFound m ph irqNum rest hli] at hw
        exact Bool.noConfusion hw
      | some i =>
        rw [wfWire_found m ph irqNum rest i hli] at hw
        rw [Bool.and_eq_true, decide_eq_true_eq] at hw
        obtain ⟨hb, hw'⟩ := hw
        rcases hg : (groupCalls dl device i irqNum).2 with _ | e
        · rw [resolveDev_step dl m device ph irqNum rest i hli hb hg]
          simp only
          apply ih
          · simp only [List.length_drop, List.length_cons]
            simp only [List.length_cons] at hl
            omega
          · exact hw'
        · rw [resolveDev_stop dl m device ph irqNum rest i e hli hb hg]
          simp only
          intro hc
          apply groupCalls_ne_slice dl device i irqNum
          rw [hg]
          exact hc

/-- Witness for C8 at a concrete input: a well-formed two-group wire list for
a one-cell controller never reaches the slice panic. -/
theorem c8_witness :
    wfWire [(1, (⟨0, 1⟩ : Intc))] [1, 5, 1, sentinel] = true ∧
    (resolveDev [(Device.Irq 100 32, [])] [(1, ⟨0, 1⟩)] (Device.Uart 7)
        [1, 5, 1, sentinel]).2 ≠ some .panicSlice := by
  have hwf : wfWire [(1, (⟨0, 1⟩ : Intc))] [1, 5, 1, sentinel] = true := by
    simp [wfWire_found, wfWire_single, wfWire_nil, lookupIntc]
  exact ⟨hwf, c8_wf_no_slice_panic [(Device.Irq 100 32, [])] [(1, ⟨0, 1⟩)]
    (Device.Uart 7) [1, 5, 1, sentinel] hwf⟩

/-- C6: the two failures classified as structural inconsistency — a wire-list
reference to an unknown controller phandle, and a failing
register_device/unmask call (modelled from the spec as an interrupt number
outside the controller's supported range) — stop the binding loop with the
invalid-parameter error; and any binding-loop error aborts the entire build
and is surfaced to the top-level caller unchanged. -/
theorem c6_structural_failures (dl : List DevWithInterrupt) (m : List (Nat × Intc))
    (device : Device) (ph irqNum : Nat) (rest : List Nat)
    (h : lookupIntc m ph = none ∨
      ∃ i cid n ie, lookupIntc m ph = some i ∧ i.cells ≤ rest.length + 1 ∧
        dl[i.index]? = some (Device.Irq cid n, ie) ∧ irqNum ≠ sentinel ∧ n ≤ irqNum) :
    (resolveDev dl m device (ph :: irqNum :: rest)).2 = some (.err .invalidParam) ∧
    ∀ (nodes : List Node) (tr : List Event) (e : BuildErr),
      bindDevices (discoverList initState nodes).devList
          (discoverList initState nodes).intcMap
          (discoverList initState nodes).devList = (tr, some e) →
      (build nodes).res = .error e := by
  constructor
  · rcases h with h | ⟨i, cid, n, ie, hl, hb, hidx, hs, hn⟩
    · rw [resolveDev_notFound dl m device ph irqNum rest h]
    · have hg : (groupCalls dl device i irqNum).2 = some (.err .invalidParam) := by
        simp [groupCalls, hidx, hs, registerOk, Nat.not_lt.mpr hn]
      rw [resolveDev_stop dl m device ph irqNum rest i _ hl hb hg]
  · intro nodes tr e hbind
    simp only [build]
    rw [hbind]

/-- Witness for C6: the unknown-phandle case of `exTree` stops the loop with
the invalid-parameter error, and `build` surfaces exactly that error. -/
theorem c6_witness :
    (resolveDev (discoverList initState exTree).devList
        (discoverList initState exTree).intcMap (Device.Uart 8) (2 :: 6 :: [])).2 =
      some (.err .invalidParam) ∧
    (build exTree).res = .error (.err .invalidParam) := by
  have hlk : lookupIntc (discoverList initState exTree).intcMap 2 = none := by decide
  have h := c6_structural_failures (discoverList initState exTree).devList
    (discoverList initState exTree).intcMap (Device.Uart 8) 2 6 [] (Or.inl hlk)
  have hbind : bindDevices (discoverList initState exTree).devList
      (discoverList initState exTree).intcMap (discoverList initState exTree).devList =
      ([Event.register (Device.Irq 100 32) 5 (Device.Uart 7),
        Event.unmask (Device.Irq 100 32) 5], some (.err .invalidParam)) := by
    simp [exTree, discoverList, discoverNode, discoverIntcPhase, discoverDevPhase, initState,
      bindDevices, resolveDev_nil, resolveDev_single, resolveDev_step, resolveDev_stop,
      resolveDev_notFound, groupCalls, lookupIntc, sentinel, registerOk]
  exact ⟨h.1, h.2 exTree _ _ hbind⟩

/-- C5: every controller-table entry produced by the discovery pass indexes
an Irq-class entry of the device list, for every input tree; consequently,
on a table hit the resolver's `unreachable!` branch and its device-list
indexing panic can never fire. -/
theorem c5_table_entries_are_irq (nodes : List Node) (ph : Nat) (i : Intc)
    (h : lookupIntc (discoverList initState nodes).intcMap ph = some i) :
    (∃ cid n ie, (discoverList initState nodes).devList[i.index]? =
      some (Device.Irq cid n, ie)) ∧
    ∀ (device : Device) (irqNum : Nat),
      (groupCalls (discoverList initState nodes).devList device i irqNum).2 ≠
        some .panicUnreachable ∧
      (groupCalls (discoverList initState nodes).devList device i irqNum).2 ≠
        some .panicIndex := by
  have h0 : MapOk initState.intcMap initState.devList := by
    intro ph' i' hl
    simp [initState, lookupIntc] at hl
  have hm := mapOk_discoverList initState nodes h0
  obtain ⟨cid, n, ie, hd⟩ := hm ph i h
  refine ⟨⟨cid, n, ie, hd⟩, fun device irqNum => ?_⟩
  constructor <;> simp [groupCalls, hd] <;> split_ifs <;> simp

/-- Witness for C5 on `exTree`: the table entry for phandle 1 indexes the
Irq-class controller at position 0 of the device list. -/
theorem c5_witness :
    lookupIntc (discoverList initState exTree).intcMap 1 = some ⟨0, 1⟩ ∧
    ((∃ cid n ie, (discoverList initState exTree).devList[(⟨0, 1⟩ : Intc).index]? =
      some (Device.Irq cid n, ie)) ∧
    ∀ (device : Device) (irqNum : Nat),
      (groupCalls (discoverList initState exTree).devList device ⟨0, 1⟩ irqNum).2 ≠
        some .panicUnreachable ∧
      (groupCalls (discoverList initState exTree).devList device ⟨0, 1⟩ irqNum).2 ≠
        some .panicIndex) :=
  ⟨by decide, c5_table_entries_are_irq exTree 1 ⟨0, 1⟩ (by decide)⟩

/-- C7: during the discovery pass, a node whose classification attempts all
report not-supported is skipped silently with no warning and no state change;
a node with any other decode/resource failure is logged as a warning while
only that node is skipped; and in either case the walk continues over the
remaining nodes (discovery of a list factors through any prefix). -/
theorem c7_node_failure_policy (st : DiscoverState) (nd : Node) :
    ((nd.hasIntcProp = true → nd.intcOutcome = .notSupported) →
      nd.devOutcome = .notSupported → discoverNode st nd = st) ∧
    (∀ e : DeviceError, nd.hasIntcProp = false → nd.devOutcome = .errOther e →
      discoverNode st nd = { st with warnings := st.warnings ++ [nd.name] }) ∧
    (∀ e : DeviceError, nd.hasIntcProp = true → nd.intcOutcome = .errOther e →
      nd.devOutcome = .notSupported →
      discoverNode st nd = { st with warnings := st.warnings ++ [nd.name] }) ∧
    ∀ (st0 : DiscoverState) (ns1 ns2 : List Node),
      discoverList st0 (ns1 ++ ns2) = discoverList (discoverList st0 ns1) ns2 := by
  refine ⟨?_, ?_, ?_, ?_⟩
  · intro hi hd
    cases hic : nd.hasIntcProp with
    | false => simp [discoverNode, discoverDevPhase, discoverIntcPhase, hic, hd]
    | true => simp [discoverNode, discoverDevPhase, discoverIntcPhase, hic, hi hic, hd]
  · intro e hfi hd
    simp [discoverNode, discoverDevPhase, discoverIntcPhase, hfi, hd]
  · intro e hti hie hd
    simp [discoverNode, discoverDevPhase, discoverIntcPhase, hti, hie, hd]
  · intro st0 ns1 ns2
    induction ns1 generalizing st0 with
    | nil => rfl
    | cons n ns ih => exact ih (discoverNode st0 n)

/-- Witness for C7 at concrete nodes: an unsupported node leaves the state
unchanged, two failing nodes each add exactly one warning, and the walk over
a two-node list factors through its first node. -/
theorem c7_witness :
    discoverNode initState ⟨5, false, .notSupported, .notSupported⟩ = initState ∧
    discoverNode initState ⟨6, false, .notSupported, .errOther .noResources⟩ =
      { initState with warnings := initState.warnings ++ [6] } ∧
    discoverNode initState ⟨7, true, .errOther .noResources, .notSupported⟩ =
      { initState with warnings := initState.warnings ++ [7] } ∧
    discoverList initState ([⟨5, false, .notSupported, .notSupported⟩] ++
        [⟨6, false, .notSupported, .errOther .noResources⟩]) =
      discoverList (discoverList initState [⟨5, false, .notSupported, .notSupported⟩])
        [⟨6, false, .notSupported, .errOther .noResources⟩] :=
  ⟨(c7_node_failure_policy initState _).1 (by simp) rfl,
   (c7_node_failure_policy initState _).2.1 .noResources rfl rfl,
   (c7_node_failure_policy initState _).2.2.1 .noResources rfl rfl rfl,
   (c7_node_failure_policy initState ⟨5, false, .notSupported, .notSupported⟩).2.2.2
     initState [⟨5, false, .notSupported, .notSupported⟩]
     [⟨6, false, .notSupported, .errOther .noResources⟩]⟩

/-- C4: for a two-node tree of one controller and one device wired to it, the
build outcome — success, and the register/unmask calls issued — is the same
whether the referencing device node precedes or follows the controller node
in traversal order: the controller table is complete before the binding pass
begins. -/
theorem c4_order_independence (nm1 nm2 ph cid n did q : Nat) (w : List Nat)
    (hq : q ≠ sentinel) (hn : q < n) :
    (build [⟨nm2, false, .notSupported, .ok (Device.Uart did, ph :: q :: w)⟩,
            ⟨nm1, true, .ok ⟨cid, n, [], ph, w.length + 1⟩, .notSupported⟩]).res =
      .ok [Device.Uart did, Device.Irq cid n] ∧
    (build [⟨nm2, false, .notSupported, .ok (Device.Uart did, ph :: q :: w)⟩,
            ⟨nm1, true, .ok ⟨cid, n, [], ph, w.length + 1⟩, .notSupported⟩]).trace =
      [Event.register (Device.Irq cid n) q (Device.Uart did),
       Event.unmask (Device.Irq cid n) q] ∧
    (build [⟨nm1, true, .ok ⟨cid, n, [], ph, w.length + 1⟩, .notSupported⟩,
            ⟨nm2, false, .notSupported, .ok (Device.Uart did, ph :: q :: w)⟩]).res =
      .ok [Device.Irq cid n, Device.Uart did] ∧
    (build [⟨nm1, true, .ok ⟨cid, n, [], ph, w.length + 1⟩, .notSupported⟩,
            ⟨nm2, false, .notSupported, .ok (Device.Uart did, ph :: q :: w)⟩]).trace =
      (build [⟨nm2, false, .notSupported, .ok (Device.Uart did, ph :: q :: w)⟩,
              ⟨nm1, true, .ok ⟨cid, n, [], ph, w.length + 1⟩, .notSupported⟩]).trace := by
  have hdrop : List.drop (w.length + 1) (q :: w) = [] := by
    rw [← List.length_cons q w]
    exact List.drop_length _
  refine ⟨?_, ?_, ?_, ?_⟩ <;>
    simp [build, discoverList, discoverNode, discoverIntcPhase, discoverDevPhase, initState,
      bindDevices, resolveDev_nil, resolveDev_single, resolveDev_step, resolveDev_stop,
      resolveDev_notFound, groupCalls, lookupIntc, hq, hn, registerOk, hdrop]

/-- Witness for C4 at a concrete input: phandle 1, one-cell controller,
device wire list `[1, 5]`, in both traversal orders. -/
theorem c4_witness :
    5 ≠ sentinel ∧ 5 < 32 ∧
    (build [⟨1, false, .notSupported, .ok (Device.Uart 7, [1, 5])⟩,
            ⟨0, true, .ok ⟨100, 32, [], 1, 1⟩, .notSupported⟩]).res =
      .ok [Device.Uart 7, Device.Irq 100 32] ∧
    (build [⟨0, true, .ok ⟨100, 32, [], 1, 1⟩, .notSupported⟩,
            ⟨1, false, .notSupported, .ok (Device.Uart 7, [1, 5])⟩]).trace =
      (build [⟨1, false, .notSupported, .ok (Device.Uart 7, [1, 5])⟩,
              ⟨0, true, .ok ⟨100, 32, [], 1, 1⟩, .notSupported⟩]).trace := by
  have h := c4_order_independence 0 1 1 100 32 7 5 [] (by decide) (by decide)
  exact ⟨by decide, by decide, h.1, h.2.2.2⟩

/-- C1 counterexample: in `exTree` the second UART references the undeclared
phandle 2; `build` returns the fatal invalid-parameter error, but the
register and unmask calls for the first UART (wired to controller phandle 1,
which precedes the failure in the loop) have already been performed —
contradicting the claim that no registration or unmask call is performed for
any device in the tree. -/
theorem c1_counterexample :
    (build exTree).res = .error (.err .invalidParam) ∧
    Event.register (Device.Irq 100 32) 5 (Device.Uart 7) ∈ (build exTree).trace := by
  have hb : build exTree =
      ⟨.error (.err .invalidParam),
       [Event.register (Device.Irq 100 32) 5 (Device.Uart 7),
        Event.unmask (Device.Irq 100 32) 5], []⟩ := by
    simp [build, exTree, discoverList, discoverNode, discoverIntcPhase, discoverDevPhase,
      initState, bindDevices, resolveDev_nil, resolveDev_single, resolveDev_step,
      resolveDev_stop, resolveDev_notFound, groupCalls, lookupIntc, sentinel, registerOk]
  rw [hb]
  exact ⟨rfl, by simp⟩

/-- C1 amended: when the devices bound before some device all resolve without
error and that device's own resolution stops with the invalid-parameter error
(its cursor reached a reference to a phandle absent from the controller
table), the registration loop returns that error together with exactly the
calls issued so far: an unknown handle at the cursor contributes no call for
its group or for anything after it, no later device is bound, while the calls
already issued â for earlier devices and for the failing device's own groups
preceding the bad reference â stand (they are not rolled back), and `build`
surfaces the loop's invalid-parameter error. -/
theorem c1_amended_no_calls_from_failing_group (dl : List DevWithInterrupt)
    (m : List (Nat × Intc)) (ds1 ds2 : List DevWithInterrupt) (device : Device)
    (ext : List Nat) (tr1 trd : List Event) (ph irqNum : Nat) (rest : List Nat)
    (h1 : bindDevices dl m ds1 = (tr1, none))
    (h2 : resolveDev dl m device ext = (trd, some (.err .invalidParam))) :
    (lookupIntc m ph = none →
      resolveDev dl m device (ph :: irqNum :: rest) = ([], some (.err .invalidParam))) ∧
    bindDevices dl m (ds1 ++ (device, ext) :: ds2) =
      (tr1 ++ trd, some (.err .invalidParam)) ∧
    ∀ nodes : List Node,
      bindDevices (discoverList initState nodes).devList
          (discoverList initState nodes).intcMap
          (discoverList initState nodes).devList =
        (tr1 ++ trd, some (.err .invalidParam)) →
      (build nodes).res = .error (.err .invalidParam) := by
  refine ⟨fun hph => resolveDev_notFound dl m device ph irqNum rest hph, ?_, ?_⟩
  · induction ds1 generalizing tr1 with
    | nil =>
      simp only [bindDevices] at h1
      cases h1
      simp only [List.nil_append, bindDevices, h2]
    | cons d ds ih =>
      obtain ⟨dev0, ie0⟩ := d
      rcases hr : resolveDev dl m dev0 ie0 with ⟨evs, e⟩
      simp only [bindDevices, hr] at h1
      cases e with
      | some e0 => simp at h1
      | none =>
        rcases hb : bindDevices dl m ds with ⟨tr2, e2⟩
        rw [hb] at h1
        simp only at h1
        injection h1 with h1a h1b
        subst h1a
        subst h1b
        simp only [List.cons_append, bindDevices, hr, List.append_eq]
        rw [ih tr2 hb]
        simp
  · intro nodes hbind
    simp only [build]
    rw [hbind]

/-- Witness for C1's amended statement at a concrete input: with a one-cell
controller at phandle 1, the failing UART's wire list `[1, 5, 2, 6]` issues
register/unmask for its first group, then the unknown phandle 2 stops the
loop with the invalid-parameter error and no further call; `build` on the
corresponding two-node tree surfaces the error. -/
theorem c1_witness :
    resolveDev [(Device.Irq 100 32, []), (Device.Uart 7, [1, 5, 2, 6])]
        [(1, ⟨0, 1⟩)] (Device.Uart 7) (2 :: 6 :: []) =
      ([], some (.err .invalidParam)) ∧
    bindDevices [(Device.Irq 100 32, []), (Device.Uart 7, [1, 5, 2, 6])]
        [(1, ⟨0, 1⟩)]
        ([(Device.Irq 100 32, [])] ++ (Device.Uart 7, [1, 5, 2, 6]) :: []) =
      ([] ++ [Event.register (Device.Irq 100 32) 5 (Device.Uart 7),
              Event.unmask (Device.Irq 100 32) 5],
       some (.err .invalidParam)) ∧
    (build [⟨0, true, .ok ⟨100, 32, [], 1, 1⟩, .notSupported⟩,
            ⟨1, false, .notSupported, .ok (Device.Uart 7, [1, 5, 2, 6])⟩]).res =
      .error (.err .invalidParam) := by
  have h1 : bindDevices [(Device.Irq 100 32, []), (Device.Uart 7, [1, 5, 2, 6])]
      [(1, ⟨0, 1⟩)] [(Device.Irq 100 32, [])] = ([], none) := by
    simp [bindDevices, resolveDev_nil]
  have h2 : resolveDev [(Device.Irq 100 32, []), (Device.Uart 7, [1, 5, 2, 6])]
      [(1, ⟨0, 1⟩)] (Device.Uart 7) [1, 5, 2, 6] =
      ([Event.register (Device.Irq 100 32) 5 (Device.Uart 7),
        Event.unmask (Device.Irq 100 32) 5], some (.err .invalidParam)) := by
    simp [resolveDev_step, resolveDev_notFound, groupCalls, lookupIntc, sentinel, registerOk]
  have h := c1_amended_no_calls_from_failing_group
    [(Device.Irq 100 32, []), (Device.Uart 7, [1, 5, 2, 6])] [(1, ⟨0, 1⟩)]
    [(Device.Irq 100 32, [])] [] (Device.Uart 7) [1, 5, 2, 6] []
    [Event.register (Device.Irq 100 32) 5 (Device.Uart 7),
     Event.unmask (Device.Irq 100 32) 5] 2 6 [] h1 h2
  have hbind : bindDevices
      (discoverList initState
        [⟨0, true, .ok ⟨100, 32, [], 1, 1⟩, .notSupported⟩,
         ⟨1, false, .notSupported, .ok (Device.Uart 7, [1, 5, 2, 6])⟩]).devList
      (discoverList initState
        [⟨0, true, .ok ⟨100, 32, [], 1, 1⟩, .notSupported⟩,
         ⟨1, false, .notSupported, .ok (Device.Uart 7, [1, 5, 2, 6])⟩]).intcMap
      (discoverList initState
        [⟨0, true, .ok ⟨100, 32, [], 1, 1⟩, .notSupported⟩,
         ⟨1, false, .notSupported, .ok (Device.Uart 7, [1, 5, 2, 6])⟩]).devList =
      ([] ++ [Event.register (Device.Irq 100 32) 5 (Device.Uart 7),
              Event.unmask (Device.Irq 100 32) 5], some (.err .invalidParam)) := by
    simp [discoverList, discoverNode, discoverIntcPhase, discoverDevPhase, initState,
      bindDevices, resolveDev_nil, resolveDev_single, resolveDev_step, resolveDev_stop,
      resolveDev_notFound, groupCalls, lookupIntc, sentinel, registerOk]
  exact ⟨h.1 (by decide), h.2.1, h.2.2 _ hbind⟩

end ZCoreDT
